import Mathlib

/-!
# Verification of the GLTFWebViewer translation pipeline and configurator

Shallow embedding of the variant configuration engine (`Configurator`),
the material translator (`translateMaterial`), the mesh translator
(`translateMesh`, non-compressed path), the compressed-geometry index
assembly, and the variant-set node-property parsing
(`_parseVariantNodeProperties`), together with theorems settling the
specification claims about them.
-/

namespace GLTFViewer

/-! ## Variant configuration engine

Embedding of `Configurator` (src `Configurator.ts`).  Subscriber callbacks
are modelled as opaque tokens (naturals); a call of `setValue` returns the
list of (token, valueId) notification events in invocation order instead
of running the callbacks. -/

/-- Modelled from the spec: `FieldManager` is imported by `Configurator.ts`
but its source is not in the repository snapshot.  Per the spec's data
model, a Field is an ordered list of Values (ids are positions in the
list) together with a declared default value id. -/
structure Field where
  values : List Nat
  defaultValue : Nat
  deriving Repr, DecidableEq

/-- Modelled from the spec: the field domain owned by a `FieldManager`. -/
structure FieldManager where
  fields : List Field
  deriving Repr, DecidableEq

/-- Modelled from the spec: `manager.getValues(fieldId)` returns the
field's ordered value list, or `undefined` for an unknown field. -/
def FieldManager.getValues (m : FieldManager) (fieldId : Nat) : Option (List Nat) :=
  (m.fields.get? fieldId).map Field.values

/-- Modelled from the spec: `manager.getValue(fieldId, valueId)` returns
the value with id `valueId` of field `fieldId` (value ids are indices into
the field's value list), or `undefined`. -/
def FieldManager.getValue (m : FieldManager) (fieldId valueId : Nat) : Option Nat :=
  (m.getValues fieldId).bind fun vs => vs.get? valueId

/-- The error cases of `Configurator.setValue` / `onValueChange`. -/
inductive ConfigError where
  | invalidField
  | invalidValue
  deriving Repr, DecidableEq

/-- State of a `Configurator`: the manager, the dense configuration vector
(one current value id per field), and the per-field subscriber lists. -/
structure Configurator where
  manager : FieldManager
  configuration : List Nat
  callbacks : List (List Nat)
  deriving Repr, DecidableEq

/-- The constructor: `_configuration = manager.fields.map(f => f.defaultValue)`,
`_callbacks = manager.fields.map(_ => [])`. -/
def Configurator.create (m : FieldManager) : Configurator :=
  { manager := m
    configuration := m.fields.map Field.defaultValue
    callbacks := m.fields.map fun _ => [] }

/-- `getDomain(fieldId)`: `manager.getValues(fieldId)?.map((_, i) => i) || []`
(mapping each value to its position yields `range` of the length). -/
def Configurator.getDomain (c : Configurator) (fieldId : Nat) : List Nat :=
  ((c.manager.getValues fieldId).map fun vs => List.range vs.length).getD []

/-- `getValue(fieldId)`: `this.configuration[fieldId]` (`undefined` when out
of range). -/
def Configurator.getValue (c : Configurator) (fieldId : Nat) : Option Nat :=
  c.configuration.get? fieldId

/-- `_onValueChange(fieldId, valueId)`: invoke each subscriber of the field
in order; modelled as the emitted event list. -/
def Configurator.onValueChangeEvents (c : Configurator) (fieldId valueId : Nat) :
    List (Nat × Nat) :=
  (c.callbacks.getD fieldId []).map fun cb => (cb, valueId)

/-- `setValue(fieldId, valueId)`.  A JS `throw` leaves the object as it
was, so the embedding always returns the resulting state: an error outcome
is paired with the unchanged state and no events. -/
def Configurator.setValue (c : Configurator) (fieldId valueId : Nat) :
    Option ConfigError × Configurator × List (Nat × Nat) :=
  if (c.configuration.get? fieldId).isNone then
    (some .invalidField, c, [])
  else if (c.manager.getValue fieldId valueId).isNone then
    (some .invalidValue, c, [])
  else
    (none,
     { c with configuration := c.configuration.set fieldId valueId },
     c.onValueChangeEvents fieldId valueId)

/-- `onValueChange(field, callback)`: register a subscriber at the end of
the field's callback list. -/
def Configurator.onValueChange (c : Configurator) (fieldId cb : Nat) :
    Option ConfigError × Configurator :=
  match c.callbacks.get? fieldId with
  | none => (some .invalidField, c)
  | some l => (none, { c with callbacks := c.callbacks.set fieldId (l ++ [cb]) })

/-- Run a sequence of `setValue` commands, threading the state (a failing
call leaves the state unchanged, as a JS throw does). -/
def Configurator.runSetValues (c : Configurator) : List (Nat × Nat) → Configurator
  | [] => c
  | (f, v) :: rest => Configurator.runSetValues (c.setValue f v).2.1 rest

/-- Modelled from the spec: every field's declared default value id is one
of the field's declared values. -/
def FieldManager.wellFormed (m : FieldManager) : Prop :=
  ∀ fld ∈ m.fields, fld.defaultValue < fld.values.length

/-- The configurator invariant: every current value id is a member of the
field's domain. -/
def Configurator.Inv (c : Configurator) : Prop :=
  ∀ f v, c.getValue f = some v → v ∈ c.getDomain f

/-- A two-field manager used for the concrete scenarios: field 0 has three
values (default id 0), field 1 has two values (default id 0). -/
def mgr2 : FieldManager :=
  { fields := [{ values := [10, 11, 12], defaultValue := 0 },
               { values := [20, 21], defaultValue := 0 }] }

/-- The scenario configurator with one subscriber (token 7) on field 0. -/
def scen : Configurator := ((Configurator.create mgr2).onValueChange 0 7).2

/-- The scenario configurator after `setValue(0, 2)`. -/
def scenAfter : Configurator := (scen.setValue 0 2).2.1

/-! ## Material translator

Embedding of `translateMaterial` (src `translateMaterial.ts`).  Colors and
factors are real numbers; textures are referenced by handle (the index
into the parser's texture list); the two shader-chunk overrides are
tracked as flags. -/

/-- `Math.pow(x, 1/2.2)`: linear-to-display colorspace conversion of one
channel. -/
noncomputable def srgbChannel (x : ℝ) : ℝ := x ^ ((1 : ℝ) / 2.2)

/-- `KHR_texture_transform` payload: optional `scale` and `offset` pairs. -/
structure TextureTransform where
  scale : Option (ℝ × ℝ)
  offset : Option (ℝ × ℝ)

/-- A glTF texture reference: `index`, optional `texCoord`, the optional
`KHR_texture_transform` extension, and the optional `scale` used by normal
textures. -/
structure TextureInfo where
  index : Nat
  texCoord : Option Nat
  KHR_texture_transform : Option TextureTransform
  scale : Option ℝ

/-- The `KHR_materials_pbrSpecularGlossiness` extension block. -/
structure SpecularGlossinessData where
  diffuseFactor : Option (ℝ × ℝ × ℝ × ℝ)
  diffuseTexture : Option TextureInfo
  specularFactor : Option (ℝ × ℝ × ℝ)
  glossinessFactor : Option ℝ
  specularGlossinessTexture : Option TextureInfo

/-- The `pbrMetallicRoughness` block of a glTF material. -/
structure PbrMetallicRoughnessData where
  baseColorFactor : Option (ℝ × ℝ × ℝ × ℝ)
  baseColorTexture : Option TextureInfo
  metallicFactor : Option ℝ
  roughnessFactor : Option ℝ
  metallicRoughnessTexture : Option TextureInfo

/-- Material-level extension blocks used by the translator.  The unlit
block is an empty object in glTF, so presence is what matters. -/
structure MaterialDataExtensions where
  KHR_materials_unlit : Option Unit
  KHR_materials_pbrSpecularGlossiness : Option SpecularGlossinessData

/-- A glTF material description, shaped as `translateMaterial` reads it. -/
structure MaterialData where
  name : Option String
  extensions : Option MaterialDataExtensions
  pbrMetallicRoughness : Option PbrMetallicRoughnessData
  normalTexture : Option TextureInfo
  occlusionTexture : Option TextureInfo
  emissiveFactor : Option (ℝ × ℝ × ℝ)
  emissiveTexture : Option TextureInfo
  alphaMode : Option String
  alphaCutoff : Option ℝ
  doubleSided : Option Bool

/-- `pc.BLEND_NONE` / `pc.BLEND_NORMAL`. -/
inductive BlendType where
  | blendNone
  | blendNormal
  deriving Repr, DecidableEq

/-- `pc.CULLFACE_NONE` / `pc.CULLFACE_BACK`. -/
inductive CullFace where
  | cullNone
  | cullBack
  deriving Repr, DecidableEq

/-- The renderer-native material parameter set assigned by the translator
(the fields of `pc.StandardMaterial` that `translateMaterial` touches,
plus the two chunk overrides as flags). -/
structure StandardMaterial where
  name : String
  occludeSpecular : Nat
  diffuseTint : Bool
  diffuseVertexColor : Bool
  specularTint : Bool
  specularVertexColor : Bool
  useLighting : Bool
  diffuse : ℝ × ℝ × ℝ
  opacity : ℝ
  diffuseMap : Option Nat
  diffuseMapChannel : String
  opacityMap : Option Nat
  opacityMapChannel : String
  diffuseMapUv : Nat
  opacityMapUv : Nat
  diffuseMapTiling : ℝ × ℝ
  opacityMapTiling : ℝ × ℝ
  diffuseMapOffset : ℝ × ℝ
  opacityMapOffset : ℝ × ℝ
  useMetalness : Bool
  metalness : ℝ
  specular : ℝ × ℝ × ℝ
  shininess : ℝ
  specularMap : Option Nat
  specularMapChannel : String
  glossMap : Option Nat
  glossMapChannel : String
  glossMapUv : Nat
  metalnessMap : Option Nat
  metalnessMapChannel : String
  metalnessMapUv : Nat
  glossMapTiling : ℝ × ℝ
  metalnessMapTiling : ℝ × ℝ
  glossMapOffset : ℝ × ℝ
  metalnessMapOffset : ℝ × ℝ
  chunksSpecularPS : Bool
  chunksGlossPS : Bool
  normalMap : Option Nat
  normalMapUv : Nat
  normalMapTiling : ℝ × ℝ
  normalMapOffset : ℝ × ℝ
  bumpiness : ℝ
  aoMap : Option Nat
  aoMapChannel : String
  aoMapUv : Nat
  aoMapTiling : ℝ × ℝ
  aoMapOffset : ℝ × ℝ
  emissive : ℝ × ℝ × ℝ
  emissiveTint : Bool
  emissiveMap : Option Nat
  emissiveMapUv : Nat
  emissiveMapTiling : ℝ × ℝ
  emissiveMapOffset : ℝ × ℝ
  blendType : BlendType
  alphaTest : ℝ
  twoSidedLighting : Bool
  cull : CullFace

/-- Modelled from the spec: the initial state of a freshly constructed
`pc.StandardMaterial` (a host-engine object, not part of this repository):
color factors opaque white, no maps, identity tiling/offset, UV set 0,
specular (non-metalness) workflow with the engine's default scalar
parameters, blending disabled, back-face culling. -/
def pcStandardMaterialDefault : StandardMaterial where
  name := "Untitled"
  occludeSpecular := 0
  diffuseTint := false
  diffuseVertexColor := false
  specularTint := false
  specularVertexColor := false
  useLighting := true
  diffuse := (1, 1, 1)
  opacity := 1
  diffuseMap := none
  diffuseMapChannel := "rgb"
  opacityMap := none
  opacityMapChannel := "a"
  diffuseMapUv := 0
  opacityMapUv := 0
  diffuseMapTiling := (1, 1)
  opacityMapTiling := (1, 1)
  diffuseMapOffset := (0, 0)
  opacityMapOffset := (0, 0)
  useMetalness := false
  metalness := 1
  specular := (1, 1, 1)
  shininess := 25
  specularMap := none
  specularMapChannel := "rgb"
  glossMap := none
  glossMapChannel := "a"
  glossMapUv := 0
  metalnessMap := none
  metalnessMapChannel := "b"
  metalnessMapUv := 0
  glossMapTiling := (1, 1)
  metalnessMapTiling := (1, 1)
  glossMapOffset := (0, 0)
  metalnessMapOffset := (0, 0)
  chunksSpecularPS := false
  chunksGlossPS := false
  normalMap := none
  normalMapUv := 0
  normalMapTiling := (1, 1)
  normalMapOffset := (0, 0)
  bumpiness := 1
  aoMap := none
  aoMapChannel := "r"
  aoMapUv := 0
  aoMapTiling := (1, 1)
  aoMapOffset := (0, 0)
  emissive := (0, 0, 0)
  emissiveTint := false
  emissiveMap := none
  emissiveMapUv := 0
  emissiveMapTiling := (1, 1)
  emissiveMapOffset := (0, 0)
  blendType := .blendNone
  alphaTest := 0
  twoSidedLighting := false
  cull := .cullBack

/-- The preamble of `translateMaterial`: the fixed assignments and the
name/unlit handling that precede workflow selection. -/
def initMaterial (data : MaterialData) : StandardMaterial :=
  let material := pcStandardMaterialDefault
  let material := { material with
    occludeSpecular := 1
    diffuseTint := true
    diffuseVertexColor := true
    specularTint := true
    specularVertexColor := true }
  let material := match data.name with
    | some n => { material with name := n }
    | none => material
  { material with
    useLighting := (data.extensions.bind fun e => e.KHR_materials_unlit).isSome }

/-- The diffuse/opacity color-factor assignment shared by both workflow
branches (`diffuseFactor` resp. `baseColorFactor`): RGB is gamma-decoded
per channel, the alpha channel becomes the opacity unconverted. -/
noncomputable def applyDiffuseFactor (factor : Option (ℝ × ℝ × ℝ × ℝ))
    (material : StandardMaterial) : StandardMaterial :=
  match factor with
  | some (r, g, b, a) =>
    { material with
      diffuse := (srgbChannel r, srgbChannel g, srgbChannel b)
      opacity := a }
  | none => { material with diffuse := (1, 1, 1), opacity := 1 }

/-- The diffuse/opacity texture assignment shared by both workflow
branches (`diffuseTexture` resp. `baseColorTexture`): one source texture
feeds the diffuse RGB and the opacity alpha channels, with UV set,
tiling and offset mirrored onto both. -/
noncomputable def applyDiffuseOpacityTexture (dt : Option TextureInfo)
    (textures : List Nat) (material : StandardMaterial) : StandardMaterial :=
  match dt with
  | some diffuseTexture =>
    let texture := textures.get? diffuseTexture.index
    let material := { material with
      diffuseMap := texture
      diffuseMapChannel := "rgb"
      opacityMap := texture
      opacityMapChannel := "a" }
    let material := match diffuseTexture.texCoord with
      | some tc => { material with diffuseMapUv := tc, opacityMapUv := tc }
      | none => material
    match diffuseTexture.KHR_texture_transform with
    | some tr =>
      let material := match tr.scale with
        | some s => { material with diffuseMapTiling := s, opacityMapTiling := s }
        | none => material
      match tr.offset with
      | some o => { material with diffuseMapOffset := o, opacityMapOffset := o }
      | none => material
    | none => material
  | none => material

/-- The `specularFactor` assignment of the spec-gloss branch. -/
noncomputable def applySGSpecularFactor (factor : Option (ℝ × ℝ × ℝ))
    (material : StandardMaterial) : StandardMaterial :=
  match factor with
  | some (r, g, b) =>
    { material with specular := (srgbChannel r, srgbChannel g, srgbChannel b) }
  | none => { material with specular := (1, 1, 1) }

/-- The `glossinessFactor` assignment of the spec-gloss branch. -/
noncomputable def applySGGlossinessFactor (factor : Option ℝ)
    (material : StandardMaterial) : StandardMaterial :=
  match factor with
  | some gf => { material with shininess := 100 * gf }
  | none => { material with shininess := 100 }

/-- The `specularGlossinessTexture` assignment of the spec-gloss branch. -/
noncomputable def applySGSpecGlossTexture (t : Option TextureInfo)
    (textures : List Nat) (material : StandardMaterial) : StandardMaterial :=
  match t with
  | some sgTexture =>
    let material := { material with
      specularMap := textures.get? sgTexture.index
      specularMapChannel := "rgb"
      glossMap := textures.get? sgTexture.index
      glossMapChannel := "a" }
    let material := match sgTexture.texCoord with
      | some tc => { material with glossMapUv := tc, metalnessMapUv := tc }
      | none => material
    match sgTexture.KHR_texture_transform with
    | some tr =>
      let material := match tr.scale with
        | some s => { material with glossMapTiling := s, metalnessMapTiling := s }
        | none => material
      match tr.offset with
      | some o => { material with glossMapOffset := o, metalnessMapOffset := o }
      | none => material
    | none => material
  | none => material

/-- The `KHR_materials_pbrSpecularGlossiness` branch of `translateMaterial`. -/
noncomputable def applySpecularGlossiness (specData : SpecularGlossinessData)
    (textures : List Nat) (material : StandardMaterial) : StandardMaterial :=
  let material := applyDiffuseFactor specData.diffuseFactor material
  let material := applyDiffuseOpacityTexture specData.diffuseTexture textures material
  let material := { material with useMetalness := false }
  let material := applySGSpecularFactor specData.specularFactor material
  let material := applySGGlossinessFactor specData.glossinessFactor material
  let material := applySGSpecGlossTexture specData.specularGlossinessTexture textures material
  { material with chunksSpecularPS := true }

/-- The `roughnessFactor` assignment of the metallic-roughness branch. -/
noncomputable def applyMRRoughnessFactor (factor : Option ℝ)
    (material : StandardMaterial) : StandardMaterial :=
  match factor with
  | some rf => { material with shininess := 100 * rf }
  | none => { material with shininess := 100 }

/-- The `metallicRoughnessTexture` assignment of the metallic-roughness
branch: metalness from the blue channel, gloss from the green channel of
one combined texture. -/
noncomputable def applyMRMetallicRoughnessTexture (t : Option TextureInfo)
    (textures : List Nat) (material : StandardMaterial) : StandardMaterial :=
  match t with
  | some mrTexture =>
    let material := { material with
      metalnessMap := textures.get? mrTexture.index
      metalnessMapChannel := "b"
      glossMap := textures.get? mrTexture.index
      glossMapChannel := "g" }
    let material := match mrTexture.texCoord with
      | some tc => { material with glossMapUv := tc, metalnessMapUv := tc }
      | none => material
    match mrTexture.KHR_texture_transform with
    | some tr =>
      let material := match tr.scale with
        | some s => { material with glossMapTiling := s, metalnessMapTiling := s }
        | none => material
      match tr.offset with
      | some o => { material with glossMapOffset := o, metalnessMapOffset := o }
      | none => material
    | none => material
  | none => material

/-- The `pbrMetallicRoughness` branch of `translateMaterial`. -/
noncomputable def applyMetallicRoughness (pbrData : PbrMetallicRoughnessData)
    (textures : List Nat) (material : StandardMaterial) : StandardMaterial :=
  let material := applyDiffuseFactor pbrData.baseColorFactor material
  let material := applyDiffuseOpacityTexture pbrData.baseColorTexture textures material
  let material := { material with
    useMetalness := true
    metalness := pbrData.metallicFactor.getD 1 }
  let material := applyMRRoughnessFactor pbrData.roughnessFactor material
  let material := applyMRMetallicRoughnessTexture pbrData.metallicRoughnessTexture textures material
  { material with chunksGlossPS := true }

/-- Workflow selection: the spec-gloss extension block takes priority,
then the metallic-roughness block, else the material is left as-is. -/
noncomputable def selectWorkflow (data : MaterialData) (textures : List Nat)
    (material : StandardMaterial) : StandardMaterial :=
  match data.extensions.bind fun e => e.KHR_materials_pbrSpecularGlossiness with
  | some specData => applySpecularGlossiness specData textures material
  | none =>
    match data.pbrMetallicRoughness with
    | some pbrData => applyMetallicRoughness pbrData textures material
    | none => material

/-- The `normalTexture` block (`if (normalTexture.scale)` is a JS
truthiness test, so a zero scale leaves bumpiness untouched). -/
noncomputable def applyNormalTexture (data : MaterialData) (textures : List Nat)
    (material : StandardMaterial) : StandardMaterial :=
  match data.normalTexture with
  | some normalTexture =>
    let material := { material with normalMap := textures.get? normalTexture.index }
    let material := match normalTexture.texCoord with
      | some tc => { material with normalMapUv := tc }
      | none => material
    let material := match normalTexture.KHR_texture_transform with
      | some tr =>
        let material := match tr.scale with
          | some s => { material with normalMapTiling := s }
          | none => material
        match tr.offset with
        | some o => { material with normalMapOffset := o }
        | none => material
      | none => material
    match normalTexture.scale with
    | some s => if s = 0 then material else { material with bumpiness := s }
    | none => material
  | none => material

/-- The `occlusionTexture` block. -/
noncomputable def applyOcclusionTexture (data : MaterialData) (textures : List Nat)
    (material : StandardMaterial) : StandardMaterial :=
  match data.occlusionTexture with
  | some occlusionTexture =>
    let material := { material with
      aoMap := textures.get? occlusionTexture.index
      aoMapChannel := "r" }
    let material := match occlusionTexture.texCoord with
      | some tc => { material with aoMapUv := tc }
      | none => material
    match occlusionTexture.KHR_texture_transform with
    | some tr =>
      let material := match tr.scale with
        | some s => { material with aoMapTiling := s }
        | none => material
      match tr.offset with
      | some o => { material with aoMapOffset := o }
      | none => material
    | none => material
  | none => material

/-- The `emissiveFactor` block. -/
noncomputable def applyEmissiveFactor (data : MaterialData)
    (material : StandardMaterial) : StandardMaterial :=
  match data.emissiveFactor with
  | some (r, g, b) =>
    { material with
      emissive := (srgbChannel r, srgbChannel g, srgbChannel b)
      emissiveTint := true }
  | none => { material with emissive := (0, 0, 0), emissiveTint := false }

/-- The `emissiveTexture` block. -/
noncomputable def applyEmissiveTexture (data : MaterialData) (textures : List Nat)
    (material : StandardMaterial) : StandardMaterial :=
  match data.emissiveTexture with
  | some emissiveTexture =>
    let material := { material with emissiveMap := textures.get? emissiveTexture.index }
    let material := match emissiveTexture.texCoord with
      | some tc => { material with emissiveMapUv := tc }
      | none => material
    match emissiveTexture.KHR_texture_transform with
    | some tr =>
      let material := match tr.scale with
        | some s => { material with emissiveMapTiling := s }
        | none => material
      match tr.offset with
      | some o => { material with emissiveMapOffset := o }
      | none => material
    | none => material
  | none => material

/-- The `alphaMode` switch: `MASK` disables blending and sets the cutoff
(defaulting to 0.5), `BLEND` enables blending, anything else is opaque. -/
noncomputable def applyAlphaMode (data : MaterialData)
    (material : StandardMaterial) : StandardMaterial :=
  match data.alphaMode with
  | some "MASK" =>
    { material with
      blendType := .blendNone
      alphaTest := data.alphaCutoff.getD 0.5 }
  | some "BLEND" => { material with blendType := .blendNormal }
  | _ => { material with blendType := .blendNone }

/-- The `doubleSided` block: two-sided lighting and culling toggle
together. -/
noncomputable def applyDoubleSided (data : MaterialData)
    (material : StandardMaterial) : StandardMaterial :=
  if data.doubleSided.getD false then
    { material with twoSidedLighting := true, cull := .cullNone }
  else
    { material with twoSidedLighting := false, cull := .cullBack }

/-- `translateMaterial(data, { textures })`: the full translation, in
source order. -/
noncomputable def translateMaterial (data : MaterialData) (textures : List Nat) :
    StandardMaterial :=
  applyDoubleSided data
    (applyAlphaMode data
      (applyEmissiveTexture data textures
        (applyEmissiveFactor data
          (applyOcclusionTexture data textures
            (applyNormalTexture data textures
              (selectWorkflow data textures (initMaterial data)))))))

/-- The fields of the material that workflow selection decides and that
the post-workflow blocks never touch. -/
def StandardMaterial.coreOf (m : StandardMaterial) :
    (ℝ × ℝ × ℝ) × ℝ × (ℝ × ℝ × ℝ) × Bool × ℝ × ℝ × Bool × Bool
      × Option Nat × Option Nat × Nat × Nat × (ℝ × ℝ) × (ℝ × ℝ) × (ℝ × ℝ) × (ℝ × ℝ) :=
  (m.diffuse, m.opacity, m.specular, m.useMetalness, m.metalness, m.shininess,
   m.chunksSpecularPS, m.chunksGlossPS,
   m.diffuseMap, m.opacityMap, m.diffuseMapUv, m.opacityMapUv,
   m.diffuseMapTiling, m.opacityMapTiling, m.diffuseMapOffset, m.opacityMapOffset)

/-- Whether the opacity texture channel rides on the diffuse channel:
same source texture, UV set, tiling and offset. -/
def StandardMaterial.opacityMirrorsDiffuse (m : StandardMaterial) : Prop :=
  m.opacityMap = m.diffuseMap ∧ m.opacityMapUv = m.diffuseMapUv
    ∧ m.opacityMapTiling = m.diffuseMapTiling ∧ m.opacityMapOffset = m.diffuseMapOffset

/-- The `pbrMetallicRoughness` block of the red-base-color scenario. -/
def mrRedPbr : PbrMetallicRoughnessData where
  baseColorFactor := some (1, 0, 0, 1)
  baseColorTexture := none
  metallicFactor := none
  roughnessFactor := none
  metallicRoughnessTexture := none

/-- An empty spec-gloss extension block (everything defaulted). -/
def sgEmpty : SpecularGlossinessData where
  diffuseFactor := none
  diffuseTexture := none
  specularFactor := none
  glossinessFactor := none
  specularGlossinessTexture := none

/-- The concrete metallic-roughness material of the red-base-color
scenario: `baseColorFactor=[1,0,0,1]`, no textures. -/
def mrRed : MaterialData where
  name := none
  extensions := none
  pbrMetallicRoughness := some mrRedPbr
  normalTexture := none
  occlusionTexture := none
  emissiveFactor := none
  emissiveTexture := none
  alphaMode := none
  alphaCutoff := none
  doubleSided := none

/-- A material carrying only an (empty) spec-gloss extension block. -/
def sgOnlyMaterial : MaterialData :=
  { mrRed with
    pbrMetallicRoughness := none
    extensions := some
      { KHR_materials_unlit := none
        KHR_materials_pbrSpecularGlossiness := some sgEmpty } }

/-- A material with neither workflow block. -/
def noWorkflowMaterial : MaterialData :=
  { mrRed with pbrMetallicRoughness := none }

/-- The concrete material of the texture-transform scenario: a base-color
texture carrying a `KHR_texture_transform` with both scale and offset. -/
def mdTexTransform : MaterialData where
  name := none
  extensions := none
  pbrMetallicRoughness := some
    { baseColorFactor := none
      baseColorTexture := some
        { index := 0
          texCoord := none
          KHR_texture_transform := some { scale := some (2, 3), offset := some (5, 7) }
          scale := none }
      metallicFactor := none
      roughnessFactor := none
      metallicRoughnessTexture := none }
  normalTexture := none
  occlusionTexture := none
  emissiveFactor := none
  emissiveTexture := none
  alphaMode := none
  alphaCutoff := none
  doubleSided := none

/-! ## Mesh translator (uncompressed path)

Embedding of `translateMesh` (src `translateMesh` in the same module as
`translateMaterial`) for primitives without a compressed-geometry
extension.  Attribute data is carried as resolved numeric arrays; the
host's `pc.calculateNormals` is a parameter.  The compressed path's index
assembly is embedded separately below. -/

/-- A glTF accessor with its resolved data (`getAccessorData`, whose
source is not in the snapshot, resolves an accessor to its typed array;
modelled from the spec as the accessor carrying that array) and the
declared `min`/`max` bounds. -/
structure Accessor where
  data : List ℚ
  type : String
  min : Option (ℚ × ℚ × ℚ)
  max : Option (ℚ × ℚ × ℚ)
  deriving DecidableEq

/-- A glTF buffer view (only its presence matters on the embedded path). -/
structure BufferView where
  byteOffset : Nat
  byteLength : Nat
  deriving DecidableEq

/-- The named attribute semantics of a primitive, each an optional
accessor index. -/
structure Attributes where
  POSITION : Option Nat
  NORMAL : Option Nat
  TANGENT : Option Nat
  TEXCOORD_0 : Option Nat
  TEXCOORD_1 : Option Nat
  COLOR_0 : Option Nat
  JOINTS_0 : Option Nat
  WEIGHTS_0 : Option Nat
  deriving DecidableEq

/-- A primitive with no attributes at all. -/
def Attributes.empty : Attributes :=
  { POSITION := none, NORMAL := none, TANGENT := none, TEXCOORD_0 := none
    TEXCOORD_1 := none, COLOR_0 := none, JOINTS_0 := none, WEIGHTS_0 := none }

/-- A draw unit of a mesh (uncompressed; no morph targets on this path). -/
structure Primitive where
  attributes : Attributes
  indices : Option Nat
  material : Option Nat
  deriving DecidableEq

/-- The mesh document node: its primitive list. -/
structure MeshData where
  primitives : List Primitive
  deriving DecidableEq

/-- The parts of the glTF document `translateMesh` reads. -/
structure Gltf where
  accessors : Option (List Accessor)
  bufferViews : Option (List BufferView)
  deriving DecidableEq

/-- A JS runtime fault: reading a property of `undefined`. -/
inductive JsError where
  | undefinedAccess
  deriving Repr, DecidableEq

/-- The renderer mesh produced per primitive: vertex count, the semantics
included in the derived vertex layout, indexing state, draw count,
material index and bounding box (center and half extents). -/
structure PcMesh where
  numVertices : Nat
  semantics : List String
  indexed : Bool
  count : Nat
  materialIndex : Option Nat
  aabbCenter : ℚ × ℚ × ℚ
  aabbHalfExtents : ℚ × ℚ × ℚ
  deriving DecidableEq

/-- Resolve one optional attribute: absent attribute yields no data; a
present attribute index is resolved through the accessor list (an
out-of-range accessor index is an undefined access). -/
def resolveAttribute (accessors : List Accessor) (oi : Option Nat) :
    Except JsError (Option (List ℚ)) :=
  match oi with
  | none => .ok none
  | some i =>
    match accessors.get? i with
    | none => .error .undefinedAccess
    | some acc => .ok (some acc.data)

/-- `calculateIndices(numVertices)`: the synthetic index sequence
`[0..n)`. -/
def calculateIndices (numVertices : Nat) : List ℚ :=
  (List.range numVertices).map fun i => (i : ℚ)

/-- One iteration of `data.primitives.forEach`: build one renderer mesh,
or fault.  `calcNormals` stands for the host's `pc.calculateNormals`. -/
def translatePrimitive (accessors : List Accessor)
    (calcNormals : List ℚ → List ℚ → List ℚ) (primitive : Primitive) :
    Except JsError PcMesh := do
  let positions ← resolveAttribute accessors primitive.attributes.POSITION
  let normals0 ← resolveAttribute accessors primitive.attributes.NORMAL
  let tangents ← resolveAttribute accessors primitive.attributes.TANGENT
  let texCoord0 ← resolveAttribute accessors primitive.attributes.TEXCOORD_0
  let texCoord1 ← resolveAttribute accessors primitive.attributes.TEXCOORD_1
  let colors ← resolveAttribute accessors primitive.attributes.COLOR_0
  let joints ← resolveAttribute accessors primitive.attributes.JOINTS_0
  let weights ← resolveAttribute accessors primitive.attributes.WEIGHTS_0
  let indices ← resolveAttribute accessors primitive.indices
  let numVertices := (positions.map List.length).getD 0 / 3
  let normals := match positions, normals0 with
    | some ps, none =>
      some (calcNormals ps (match indices with
        | none => calculateIndices numVertices
        | some idx => idx))
    | _, _ => normals0
  let semantics :=
    (if positions.isSome then ["POSITION"] else [])
      ++ (if normals.isSome then ["NORMAL"] else [])
      ++ (if tangents.isSome then ["TANGENT"] else [])
      ++ (if texCoord0.isSome then ["TEXCOORD0"] else [])
      ++ (if texCoord1.isSome then ["TEXCOORD1"] else [])
      ++ (if colors.isSome then ["COLOR"] else [])
      ++ (if joints.isSome then ["BLENDINDICES"] else [])
      ++ (if weights.isSome then ["BLENDWEIGHT"] else [])
  match primitive.attributes.POSITION with
  | none => .error .undefinedAccess
  | some i =>
    match accessors.get? i with
    | none => .error .undefinedAccess
    | some accessor =>
      let mn := accessor.min.getD (0, 0, 0)
      let mx := accessor.max.getD (0, 0, 0)
      .ok
        { numVertices := numVertices
          semantics := semantics
          indexed := indices.isSome
          count := match indices with
            | some idx => idx.length
            | none => numVertices
          materialIndex := primitive.material
          aabbCenter := ((mx.1 + mn.1) / 2, (mx.2.1 + mn.2.1) / 2, (mx.2.2 + mn.2.2) / 2)
          aabbHalfExtents := ((mx.1 - mn.1) / 2, (mx.2.1 - mn.2.1) / 2, (mx.2.2 - mn.2.2) / 2) }

/-- `translateMesh(data, resources)`: missing accessor or buffer-view
tables warn and return `undefined`; otherwise each primitive is built in
order, and a fault in any primitive aborts the whole call (JS `forEach`
does not catch). -/
def translateMesh (gltf : Gltf) (calcNormals : List ℚ → List ℚ → List ℚ)
    (data : MeshData) : Except JsError (Option (List PcMesh)) :=
  match gltf.accessors, gltf.bufferViews with
  | some accessors, some _ =>
    (data.primitives.mapM (translatePrimitive accessors calcNormals)).map some
  | _, _ => .ok none

/-! ## Compressed-geometry index assembly

Embedding of the triangulated-mesh index construction of the Draco branch
of `translateMesh` (the decoded faces are a parameter standing for
`decoder.GetFaceFromMesh`). -/

/-- The element width of the produced index array. -/
inductive IndexWidth where
  | u16
  | u32
  deriving Repr, DecidableEq

/-- The loop `for (i = 0; i < numFaces; i++)` writing three corner indices
per face. -/
def dracoFaceIndices (face : Nat → Nat × Nat × Nat) : Nat → List Nat
  | 0 => []
  | n + 1 => dracoFaceIndices face n ++ [(face n).1, (face n).2.1, (face n).2.2]

/-- The triangulated-mesh index assembly: the element width is
`numPoints > 65535 ? Uint32Array : Uint16Array`, the payload is three
corner indices per face. -/
def dracoIndexArray (numPoints numFaces : Nat) (face : Nat → Nat × Nat × Nat) :
    IndexWidth × List Nat :=
  (if numPoints > 65535 then .u32 else .u16, dracoFaceIndices face numFaces)

/-! ## Mesh-translation scenario inputs -/

/-- One accessor holding three vertices forming a triangle. -/
def triAccessor : Accessor :=
  { data := [0, 0, 0, 1, 0, 0, 0, 1, 0]
    type := "VEC3"
    min := some (0, 0, 0)
    max := some (1, 1, 0) }

/-- A primitive with no attributes (its position data cannot be
resolved). -/
def primNoPosition : Primitive :=
  { attributes := Attributes.empty, indices := none, material := none }

/-- A well-formed triangle primitive referencing `triAccessor`. -/
def primTriangle : Primitive :=
  { attributes := { Attributes.empty with POSITION := some 0 }
    indices := none
    material := some 0 }

/-- The document for the mesh scenarios. -/
def gltfScenario : Gltf :=
  { accessors := some [triAccessor], bufferViews := some [] }

/-- A stand-in for `pc.calculateNormals` used in closed scenarios. -/
def constantNormals (positions : List ℚ) (_indices : List ℚ) : List ℚ :=
  positions.map fun _ => 0

/-- A mesh whose first primitive has no resolvable position data and whose
second is the well-formed triangle. -/
def mixedMesh : MeshData := { primitives := [primNoPosition, primTriangle] }

/-- The same document with only the well-formed triangle primitive. -/
def triangleOnlyMesh : MeshData := { primitives := [primTriangle] }

/-- The renderer mesh the triangle primitive translates to. -/
def triangleMesh : PcMesh :=
  { numVertices := 3
    semantics := ["POSITION", "NORMAL"]
    indexed := false
    count := 3
    materialIndex := some 0
    aabbCenter := (1/2, 1/2, 0)
    aabbHalfExtents := (1/2, 1/2, 0) }

/-! ## Variant-set node-property parsing

Embedding of `VariantSetExtensionParser._parseVariantNodeProperties`
(src `VariantSet.ts`). -/

/-- One entry of a variant's `materials` array: a material-slot index and
a container-material index. -/
structure VariantMaterialData where
  index : Nat
  material : Nat
  deriving DecidableEq

/-- The raw per-node property block of a variant. -/
structure VariantNodePropertiesData where
  visible : Option Bool
  materials : Option (List VariantMaterialData)
  mesh : Option Int
  deriving DecidableEq

/-- A host material asset (only its id matters here). -/
structure MaterialAsset where
  id : Nat
  deriving DecidableEq

/-- A host model asset (only its id matters here). -/
structure ModelAsset where
  id : Nat
  deriving DecidableEq

/-- The parts of the container resource the parser reads: the material and
model asset tables (entries may be missing). -/
structure ContainerResource where
  materials : List (Option MaterialAsset)
  models : List (Option ModelAsset)
  deriving DecidableEq

/-- A JS value that is a number, `null`, or `undefined`. -/
inductive ModelRef where
  | undef
  | null
  | asset (id : Nat)
  deriving Repr, DecidableEq

/-- The parsed per-node properties. -/
structure VariantNodeProperties where
  visible : Option Bool
  materialMapping : Option (List (Nat × Nat))
  modelAssetID : ModelRef
  deriving DecidableEq

/-- JS object update `{...result, [k]: v}`: an existing key keeps its
position and gets the new value; a new key is appended. -/
def objSet (l : List (Nat × Nat)) (k v : Nat) : List (Nat × Nat) :=
  if l.any fun kv => kv.1 = k then
    l.map fun kv => if kv.1 = k then (k, v) else kv
  else
    l ++ [(k, v)]

/-- Array lookup `container.materials[i]` flattening a missing entry. -/
def ContainerResource.materialAt (c : ContainerResource) (i : Nat) :
    Option MaterialAsset :=
  (c.materials.get? i).join

/-- Array lookup `container.models[m]` for a signed index. -/
def ContainerResource.modelAt (c : ContainerResource) (m : Int) :
    Option ModelAsset :=
  if 0 ≤ m then (c.models.get? m.toNat).join else none

/-- The accumulator step of the `materials?.reduce` call: an entry whose
referenced container material exists adds/overwrites its slot mapping;
otherwise the accumulator is returned unchanged. -/
def materialMappingStep (c : ContainerResource) (result : List (Nat × Nat))
    (data : VariantMaterialData) : List (Nat × Nat) :=
  match c.materialAt data.material with
  | some material => objSet result data.index material.id
  | none => result

/-- `_parseVariantNodeProperties({visible, materials, mesh}, container)`. -/
def parseVariantNodeProperties (props : VariantNodePropertiesData)
    (container : ContainerResource) : VariantNodeProperties :=
  { visible := props.visible
    materialMapping := props.materials.map fun mats =>
      mats.foldl (materialMappingStep container) []
    modelAssetID :=
      match props.mesh with
      | some m =>
        if m ≠ -1 then
          match container.modelAt m with
          | some mdl => .asset mdl.id
          | none => .undef
        else .null
      | none => .undef }

end GLTFViewer

namespace GLTFViewer

/-! ## Theorems about the configuration engine -/

theorem listGetSetNe {α : Type} (a : α) (l : List α) {m n : Nat} (h : m ≠ n) :
    (l.set m a).get? n = l.get? n := by
  rw [List.get?_eq_getElem?, List.get?_eq_getElem?, List.getElem?_set_ne h]

theorem listGetSetSelf {α : Type} (a : α) {l : List α} {n : Nat} (h : n < l.length) :
    (l.set n a).get? n = some a := by
  rw [List.get?_eq_getElem?, List.getElem?_set_eq_of_lt a h]

theorem setValue_cases (c : Configurator) (f v : Nat) :
    (c.configuration.get? f = none → c.setValue f v = (some .invalidField, c, []))
    ∧ (c.configuration.get? f ≠ none → c.manager.getValue f v = none →
        c.setValue f v = (some .invalidValue, c, []))
    ∧ (c.configuration.get? f ≠ none → c.manager.getValue f v ≠ none →
        c.setValue f v =
          (none, { c with configuration := c.configuration.set f v },
           (c.callbacks.getD f []).map fun cb => (cb, v))) := by
  refine ⟨fun h1 => ?_, fun h1 h2 => ?_, fun h1 h2 => ?_⟩
  · rw [Configurator.setValue,
      if_pos (show (c.configuration.get? f).isNone = true from
        Option.isNone_iff_eq_none.2 h1)]
  · rw [Configurator.setValue,
      if_neg (show ¬(c.configuration.get? f).isNone = true from
        fun hc => h1 (Option.isNone_iff_eq_none.1 hc)),
      if_pos (show (c.manager.getValue f v).isNone = true from
        Option.isNone_iff_eq_none.2 h2)]
  · rw [Configurator.setValue,
      if_neg (show ¬(c.configuration.get? f).isNone = true from
        fun hc => h1 (Option.isNone_iff_eq_none.1 hc)),
      if_neg (show ¬(c.manager.getValue f v).isNone = true from
        fun hc => h2 (Option.isNone_iff_eq_none.1 hc))]
    rfl

/-- C1: `setValue` fails with `InvalidField` and leaves the state unchanged
when the configuration has no slot for the field; fails with `InvalidValue`
and leaves the state unchanged when the value id is not among the field's
declared values; otherwise sets the slot and notifies every subscriber of
the field, in subscription order, with the new value id. -/
theorem setValue_spec (c : Configurator) (f v : Nat) :
    (c.configuration.get? f = none → c.setValue f v = (some .invalidField, c, []))
    ∧ (c.configuration.get? f ≠ none → c.manager.getValue f v = none →
        c.setValue f v = (some .invalidValue, c, []))
    ∧ (c.configuration.get? f ≠ none → c.manager.getValue f v ≠ none →
        c.setValue f v =
          (none, { c with configuration := c.configuration.set f v },
           (c.callbacks.getD f []).map fun cb => (cb, v))) :=
  setValue_cases c f v

/-- Witness for C1: `setValue(5, 0)` on a two-field configurator fails with
`InvalidField` and leaves the configurator unchanged. -/
theorem setValue_spec_witness :
    (Configurator.create mgr2).setValue 5 0 =
      (some .invalidField, Configurator.create mgr2, []) :=
  (setValue_spec (Configurator.create mgr2) 5 0).1 rfl

/-- C2: re-selecting the already-current value of a field succeeds and
still notifies every subscriber of the field exactly once, in order, with
that value id — no check suppresses the redundant notification. -/
theorem setValue_reselect_notifies (c : Configurator) (f v : Nat)
    (hcur : c.getValue f = some v)
    (hval : (c.manager.getValue f v).isSome = true) :
    (c.setValue f v).1 = none ∧
    (c.setValue f v).2.2 = (c.callbacks.getD f []).map fun cb => (cb, v) := by
  have h1 : c.configuration.get? f ≠ none := by
    intro h; rw [Configurator.getValue] at hcur; rw [h] at hcur; exact Option.noConfusion hcur
  have h2 : c.manager.getValue f v ≠ none := by
    intro h; rw [h] at hval; exact Bool.noConfusion hval
  rw [((setValue_cases c f v).2.2 h1 h2)]
  exact ⟨rfl, rfl⟩

/-- Witness for C2: re-selecting value 0 of field 0 (already current) on
the scenario configurator succeeds and notifies the registered subscriber
once with value 0. -/
theorem setValue_reselect_notifies_witness :
    (scen.setValue 0 0).1 = none ∧
    (scen.setValue 0 0).2.2 = (scen.callbacks.getD 0 []).map fun cb => (cb, 0) :=
  setValue_reselect_notifies scen 0 0 rfl rfl

/-- C9: a successful `setValue(f, v)` changes only the slot of field `f`;
every other field's current value is unchanged. -/
theorem setValue_frame (c : Configurator) (f v : Nat)
    (hok : (c.setValue f v).1 = none) (g : Nat) (hg : g ≠ f) :
    (c.setValue f v).2.1.getValue g = c.getValue g := by
  by_cases h1 : (c.configuration.get? f).isNone
  · rw [Configurator.setValue] at hok ⊢
    rw [if_pos h1] at hok
    exact Option.noConfusion hok
  · by_cases h2 : (c.manager.getValue f v).isNone
    · rw [Configurator.setValue] at hok ⊢
      rw [if_neg h1, if_pos h2] at hok
      exact Option.noConfusion hok
    · rw [Configurator.setValue, if_neg h1, if_neg h2]
      show (c.configuration.set f v).get? g = c.configuration.get? g
      exact listGetSetNe v c.configuration fun h => hg h.symm

/-- Witness for C9: the two-field scenario — `setValue(0, 2)` succeeds,
`getValue(0) = 2`, the subscriber registered on field 0 receives exactly
one notification with value 2, and `getValue(1)` remains 0. -/
theorem setValue_frame_witness :
    (scen.setValue 0 2).1 = none
    ∧ scenAfter.getValue 0 = some 2
    ∧ (scen.setValue 0 2).2.2 = [(7, 2)]
    ∧ scenAfter.getValue 1 = scen.getValue 1
    ∧ scen.getValue 1 = some 0 :=
  ⟨rfl, rfl, rfl, setValue_frame scen 0 2 rfl 1 (by decide), rfl⟩

theorem mem_getDomain_of_getValues {c : Configurator} {f v : Nat} {vs : List Nat}
    (hvs : c.manager.getValues f = some vs) (hlt : v < vs.length) :
    v ∈ c.getDomain f := by
  rw [Configurator.getDomain, hvs]
  simpa using hlt

theorem create_inv {m : FieldManager} (hwf : m.wellFormed) :
    (Configurator.create m).Inv := by
  intro f v h
  have h' : (m.fields.map Field.defaultValue).get? f = some v := h
  rw [List.get?_map] at h'
  cases hf : m.fields.get? f with
  | none => rw [hf] at h'; exact Option.noConfusion h'
  | some fld =>
    rw [hf] at h'
    have hv : v = fld.defaultValue := by simpa using h'.symm
    have hvs : (Configurator.create m).manager.getValues f = some fld.values := by
      show (m.fields.get? f).map Field.values = some fld.values
      rw [hf]; rfl
    exact mem_getDomain_of_getValues hvs (hv ▸ hwf fld (List.get?_mem hf))

theorem setValue_inv {c : Configurator} (h : c.Inv) (f v : Nat) :
    (c.setValue f v).2.1.Inv := by
  by_cases h1 : (c.configuration.get? f).isNone
  · rw [Configurator.setValue, if_pos h1]; exact h
  · by_cases h2 : (c.manager.getValue f v).isNone
    · rw [Configurator.setValue, if_neg h1, if_pos h2]; exact h
    · rw [Configurator.setValue, if_neg h1, if_neg h2]
      intro g w hg
      have hg' : (c.configuration.set f v).get? g = some w := hg
      by_cases hgf : g = f
      · subst hgf
        have hlt : g < c.configuration.length := by
          rcases Nat.lt_or_ge g c.configuration.length with hl | hge
          · exact hl
          · exact absurd (Option.isNone_iff_eq_none.2 (List.get?_eq_none.2 hge)) h1
        rw [listGetSetSelf v hlt] at hg'
        injection hg' with hvw
        have h2' : c.manager.getValue g v ≠ none :=
          fun hn => h2 (Option.isNone_iff_eq_none.2 hn)
        rcases Option.ne_none_iff_exists'.1 h2' with ⟨x, hx⟩
        rw [FieldManager.getValue] at hx
        cases hvs : c.manager.getValues g with
        | none => rw [hvs] at hx; exact Option.noConfusion hx
        | some vs =>
          rw [hvs] at hx
          have hx' : vs.get? v = some x := hx
          have hvlt : v < vs.length := by
            rcases Nat.lt_or_ge v vs.length with hl | hge
            · exact hl
            · rw [List.get?_eq_none.2 hge] at hx'; exact Option.noConfusion hx'
          have hvs2 : ({ c with configuration := c.configuration.set g v } :
              Configurator).manager.getValues g = some vs := hvs
          exact hvw ▸ mem_getDomain_of_getValues hvs2 hvlt
      · have : (c.configuration.set f v).get? g = c.configuration.get? g :=
          listGetSetNe v c.configuration fun hfg => hgf hfg.symm
        rw [this] at hg'
        exact h g w hg'

theorem runSetValues_inv {c : Configurator} (h : c.Inv) (cmds : List (Nat × Nat)) :
    (c.runSetValues cmds).Inv := by
  induction cmds generalizing c with
  | nil => exact h
  | cons p rest ih =>
    rcases p with ⟨f, v⟩
    exact ih (setValue_inv h f v)

/-- C3: starting from a configurator constructed over a well-formed field
domain (each slot at its field's declared default), after any sequence of
`setValue` calls every field's current value is a member of that field's
domain. -/
theorem getValue_mem_getDomain (m : FieldManager) (hwf : m.wellFormed)
    (cmds : List (Nat × Nat)) (f v : Nat)
    (h : ((Configurator.create m).runSetValues cmds).getValue f = some v) :
    v ∈ ((Configurator.create m).runSetValues cmds).getDomain f :=
  runSetValues_inv (create_inv hwf) cmds f v h

/-- Witness for C3: in the two-field scenario, after `setValue(0, 2)` and
`setValue(1, 1)`, field 0's current value 2 lies in field 0's domain. -/
theorem getValue_mem_getDomain_witness :
    mgr2.wellFormed ∧
    2 ∈ ((Configurator.create mgr2).runSetValues [(0, 2), (1, 1)]).getDomain 0 :=
  ⟨by simp only [FieldManager.wellFormed]; decide,
   getValue_mem_getDomain mgr2 (by simp only [FieldManager.wellFormed]; decide)
     [(0, 2), (1, 1)] 0 2 (by decide)⟩

/-! ## Theorems about the material translator -/

theorem initMaterial_coreOf (d : MaterialData) :
    (initMaterial d).coreOf = pcStandardMaterialDefault.coreOf := by
  unfold initMaterial
  repeat' split
  all_goals rfl

theorem applyNormalTexture_coreOf (d : MaterialData) (t : List Nat)
    (m : StandardMaterial) :
    (applyNormalTexture d t m).coreOf = m.coreOf := by
  unfold applyNormalTexture
  repeat' split
  all_goals rfl

theorem applyOcclusionTexture_coreOf (d : MaterialData) (t : List Nat)
    (m : StandardMaterial) :
    (applyOcclusionTexture d t m).coreOf = m.coreOf := by
  unfold applyOcclusionTexture
  repeat' split
  all_goals rfl

theorem applyEmissiveFactor_coreOf (d : MaterialData) (m : StandardMaterial) :
    (applyEmissiveFactor d m).coreOf = m.coreOf := by
  unfold applyEmissiveFactor
  repeat' split
  all_goals rfl

theorem applyEmissiveTexture_coreOf (d : MaterialData) (t : List Nat)
    (m : StandardMaterial) :
    (applyEmissiveTexture d t m).coreOf = m.coreOf := by
  unfold applyEmissiveTexture
  repeat' split
  all_goals rfl

theorem applyAlphaMode_coreOf (d : MaterialData) (m : StandardMaterial) :
    (applyAlphaMode d m).coreOf = m.coreOf := by
  unfold applyAlphaMode
  repeat' split
  all_goals rfl

theorem applyDoubleSided_coreOf (d : MaterialData) (m : StandardMaterial) :
    (applyDoubleSided d m).coreOf = m.coreOf := by
  unfold applyDoubleSided
  repeat' split
  all_goals rfl

theorem translateMaterial_coreOf (d : MaterialData) (t : List Nat) :
    (translateMaterial d t).coreOf = (selectWorkflow d t (initMaterial d)).coreOf := by
  unfold translateMaterial
  rw [applyDoubleSided_coreOf, applyAlphaMode_coreOf, applyEmissiveTexture_coreOf,
    applyEmissiveFactor_coreOf, applyOcclusionTexture_coreOf, applyNormalTexture_coreOf]

theorem coreOf_fields {a b : StandardMaterial} (h : a.coreOf = b.coreOf) :
    a.diffuse = b.diffuse ∧ a.opacity = b.opacity ∧ a.specular = b.specular
    ∧ a.useMetalness = b.useMetalness ∧ a.metalness = b.metalness
    ∧ a.shininess = b.shininess ∧ a.chunksSpecularPS = b.chunksSpecularPS
    ∧ a.chunksGlossPS = b.chunksGlossPS := by
  simp only [StandardMaterial.coreOf, Prod.mk.injEq] at h
  exact ⟨h.1, h.2.1, h.2.2.1, h.2.2.2.1, h.2.2.2.2.1, h.2.2.2.2.2.1,
    h.2.2.2.2.2.2.1, h.2.2.2.2.2.2.2.1⟩

theorem applyDiffuseFactor_chunksSpecularPS (f : Option (ℝ × ℝ × ℝ × ℝ))
    (m : StandardMaterial) :
    (applyDiffuseFactor f m).chunksSpecularPS = m.chunksSpecularPS := by
  unfold applyDiffuseFactor
  repeat' split
  all_goals rfl

theorem applyDiffuseFactor_chunksGlossPS (f : Option (ℝ × ℝ × ℝ × ℝ))
    (m : StandardMaterial) :
    (applyDiffuseFactor f m).chunksGlossPS = m.chunksGlossPS := by
  unfold applyDiffuseFactor
  repeat' split
  all_goals rfl

theorem applyDiffuseOpacityTexture_chunksSpecularPS (dt : Option TextureInfo)
    (t : List Nat) (m : StandardMaterial) :
    (applyDiffuseOpacityTexture dt t m).chunksSpecularPS = m.chunksSpecularPS := by
  unfold applyDiffuseOpacityTexture
  repeat' split
  all_goals rfl

theorem applyDiffuseOpacityTexture_chunksGlossPS (dt : Option TextureInfo)
    (t : List Nat) (m : StandardMaterial) :
    (applyDiffuseOpacityTexture dt t m).chunksGlossPS = m.chunksGlossPS := by
  unfold applyDiffuseOpacityTexture
  repeat' split
  all_goals rfl

theorem applySGSpecularFactor_useMetalness (f : Option (ℝ × ℝ × ℝ))
    (m : StandardMaterial) :
    (applySGSpecularFactor f m).useMetalness = m.useMetalness := by
  unfold applySGSpecularFactor
  repeat' split
  all_goals rfl

theorem applySGSpecularFactor_chunksGlossPS (f : Option (ℝ × ℝ × ℝ))
    (m : StandardMaterial) :
    (applySGSpecularFactor f m).chunksGlossPS = m.chunksGlossPS := by
  unfold applySGSpecularFactor
  repeat' split
  all_goals rfl

theorem applySGGlossinessFactor_useMetalness (f : Option ℝ) (m : StandardMaterial) :
    (applySGGlossinessFactor f m).useMetalness = m.useMetalness := by
  unfold applySGGlossinessFactor
  repeat' split
  all_goals rfl

theorem applySGGlossinessFactor_chunksGlossPS (f : Option ℝ) (m : StandardMaterial) :
    (applySGGlossinessFactor f m).chunksGlossPS = m.chunksGlossPS := by
  unfold applySGGlossinessFactor
  repeat' split
  all_goals rfl

theorem applySGSpecGlossTexture_useMetalness (ti : Option TextureInfo) (t : List Nat)
    (m : StandardMaterial) :
    (applySGSpecGlossTexture ti t m).useMetalness = m.useMetalness := by
  unfold applySGSpecGlossTexture
  repeat' split
  all_goals rfl

theorem applySGSpecGlossTexture_chunksGlossPS (ti : Option TextureInfo) (t : List Nat)
    (m : StandardMaterial) :
    (applySGSpecGlossTexture ti t m).chunksGlossPS = m.chunksGlossPS := by
  unfold applySGSpecGlossTexture
  repeat' split
  all_goals rfl

theorem applyMRRoughnessFactor_useMetalness (f : Option ℝ) (m : StandardMaterial) :
    (applyMRRoughnessFactor f m).useMetalness = m.useMetalness := by
  unfold applyMRRoughnessFactor
  repeat' split
  all_goals rfl

theorem applyMRRoughnessFactor_chunksSpecularPS (f : Option ℝ) (m : StandardMaterial) :
    (applyMRRoughnessFactor f m).chunksSpecularPS = m.chunksSpecularPS := by
  unfold applyMRRoughnessFactor
  repeat' split
  all_goals rfl

theorem applyMRMetallicRoughnessTexture_useMetalness (ti : Option TextureInfo)
    (t : List Nat) (m : StandardMaterial) :
    (applyMRMetallicRoughnessTexture ti t m).useMetalness = m.useMetalness := by
  unfold applyMRMetallicRoughnessTexture
  repeat' split
  all_goals rfl

theorem applyMRMetallicRoughnessTexture_chunksSpecularPS (ti : Option TextureInfo)
    (t : List Nat) (m : StandardMaterial) :
    (applyMRMetallicRoughnessTexture ti t m).chunksSpecularPS = m.chunksSpecularPS := by
  unfold applyMRMetallicRoughnessTexture
  repeat' split
  all_goals rfl

theorem applySpecularGlossiness_useMetalness (s : SpecularGlossinessData)
    (t : List Nat) (m : StandardMaterial) :
    (applySpecularGlossiness s t m).useMetalness = false := by
  unfold applySpecularGlossiness
  dsimp only
  rw [applySGSpecGlossTexture_useMetalness, applySGGlossinessFactor_useMetalness,
    applySGSpecularFactor_useMetalness]

theorem applySpecularGlossiness_chunksSpecularPS (s : SpecularGlossinessData)
    (t : List Nat) (m : StandardMaterial) :
    (applySpecularGlossiness s t m).chunksSpecularPS = true := rfl

theorem applySpecularGlossiness_chunksGlossPS (s : SpecularGlossinessData)
    (t : List Nat) (m : StandardMaterial) :
    (applySpecularGlossiness s t m).chunksGlossPS = m.chunksGlossPS := by
  unfold applySpecularGlossiness
  dsimp only
  rw [applySGSpecGlossTexture_chunksGlossPS, applySGGlossinessFactor_chunksGlossPS,
    applySGSpecularFactor_chunksGlossPS]
  show (applyDiffuseOpacityTexture s.diffuseTexture t
    (applyDiffuseFactor s.diffuseFactor m)).chunksGlossPS = m.chunksGlossPS
  rw [applyDiffuseOpacityTexture_chunksGlossPS, applyDiffuseFactor_chunksGlossPS]

theorem applyMetallicRoughness_useMetalness (p : PbrMetallicRoughnessData)
    (t : List Nat) (m : StandardMaterial) :
    (applyMetallicRoughness p t m).useMetalness = true := by
  unfold applyMetallicRoughness
  dsimp only
  rw [applyMRMetallicRoughnessTexture_useMetalness, applyMRRoughnessFactor_useMetalness]

theorem applyMetallicRoughness_chunksGlossPS (p : PbrMetallicRoughnessData)
    (t : List Nat) (m : StandardMaterial) :
    (applyMetallicRoughness p t m).chunksGlossPS = true := rfl

/-- C5: workflow selection — the spec-gloss extension block, when present,
selects the specular workflow (metalness off, specular chunk installed);
otherwise a present metallic-roughness block selects the metalness
workflow (metalness on, gloss chunk installed); with neither block the
color factors stay at the host default opaque white and the
metalness-workflow parameters stay at the host defaults. -/
theorem workflow_selection (d : MaterialData) (t : List Nat) :
    (∀ s, (d.extensions.bind fun e => e.KHR_materials_pbrSpecularGlossiness) = some s →
      (translateMaterial d t).useMetalness = false
      ∧ (translateMaterial d t).chunksSpecularPS = true)
    ∧ (∀ p, (d.extensions.bind fun e => e.KHR_materials_pbrSpecularGlossiness) = none →
      d.pbrMetallicRoughness = some p →
      (translateMaterial d t).useMetalness = true
      ∧ (translateMaterial d t).chunksGlossPS = true)
    ∧ ((d.extensions.bind fun e => e.KHR_materials_pbrSpecularGlossiness) = none →
      d.pbrMetallicRoughness = none →
      (translateMaterial d t).diffuse = (1, 1, 1)
      ∧ (translateMaterial d t).opacity = 1
      ∧ (translateMaterial d t).specular = (1, 1, 1)
      ∧ (translateMaterial d t).useMetalness = pcStandardMaterialDefault.useMetalness
      ∧ (translateMaterial d t).metalness = pcStandardMaterialDefault.metalness
      ∧ (translateMaterial d t).shininess = pcStandardMaterialDefault.shininess) := by
  have hc := coreOf_fields (translateMaterial_coreOf d t)
  refine ⟨fun s hs => ?_, fun p hn hp => ?_, fun hn hp => ?_⟩
  · have hsel : selectWorkflow d t (initMaterial d)
        = applySpecularGlossiness s t (initMaterial d) := by
      unfold selectWorkflow
      rw [hs]
    constructor
    · rw [hc.2.2.2.1, hsel, applySpecularGlossiness_useMetalness]
    · rw [hc.2.2.2.2.2.2.1, hsel, applySpecularGlossiness_chunksSpecularPS]
  · have hsel : selectWorkflow d t (initMaterial d)
        = applyMetallicRoughness p t (initMaterial d) := by
      unfold selectWorkflow
      rw [hn, hp]
    constructor
    · rw [hc.2.2.2.1, hsel, applyMetallicRoughness_useMetalness]
    · rw [hc.2.2.2.2.2.2.2, hsel, applyMetallicRoughness_chunksGlossPS]
  · have hsel : selectWorkflow d t (initMaterial d) = initMaterial d := by
      unfold selectWorkflow
      rw [hn, hp]
    have hcd := coreOf_fields
      ((translateMaterial_coreOf d t).trans
        ((congrArg StandardMaterial.coreOf hsel).trans (initMaterial_coreOf d)))
    exact ⟨hcd.1, hcd.2.1, hcd.2.2.1, hcd.2.2.2.1, hcd.2.2.2.2.1, hcd.2.2.2.2.2.1⟩

/-- Witness for C5: the three branches at concrete materials — a material
carrying only a spec-gloss block, the red metallic-roughness material, and
an empty material. -/
theorem workflow_selection_witness :
    ((translateMaterial sgOnlyMaterial []).useMetalness = false)
    ∧ ((translateMaterial mrRed []).chunksGlossPS = true)
    ∧ ((translateMaterial noWorkflowMaterial []).diffuse = (1, 1, 1)) :=
  ⟨((workflow_selection sgOnlyMaterial []).1 sgEmpty rfl).1,
   ((workflow_selection mrRed []).2.1 mrRedPbr rfl rfl).2,
   ((workflow_selection noWorkflowMaterial []).2.2 rfl rfl).1⟩

/-- C4: the red metallic-roughness scenario — diffuse is gamma-decoded to
exactly (1,0,0), the alpha channel becomes opacity 1 unconverted, the
metalness workflow is enabled, and the shininess is 100 (the roughness
default). -/
theorem translate_red_base_color :
    (translateMaterial mrRed []).diffuse = (1, 0, 0)
    ∧ (translateMaterial mrRed []).opacity = 1
    ∧ (translateMaterial mrRed []).useMetalness = true
    ∧ (translateMaterial mrRed []).shininess = 100 := by
  have h0 : srgbChannel 0 = 0 := by
    unfold srgbChannel
    exact Real.zero_rpow (by norm_num)
  have h1 : srgbChannel 1 = 1 := by
    unfold srgbChannel
    exact Real.one_rpow _
  refine ⟨?_, rfl, rfl, rfl⟩
  show (srgbChannel 1, srgbChannel 0, srgbChannel 0) = ((1 : ℝ), (0 : ℝ), (0 : ℝ))
  rw [h0, h1]

theorem initMaterial_mirror (d : MaterialData) :
    (initMaterial d).opacityMirrorsDiffuse := by
  unfold initMaterial StandardMaterial.opacityMirrorsDiffuse
  repeat' split
  all_goals exact ⟨rfl, rfl, rfl, rfl⟩

theorem mirror_congr {a b : StandardMaterial} (h : a.coreOf = b.coreOf)
    (hb : b.opacityMirrorsDiffuse) : a.opacityMirrorsDiffuse := by
  simp only [StandardMaterial.coreOf, Prod.mk.injEq] at h
  obtain ⟨-, -, -, -, -, -, -, -, h9, h10, h11, h12, h13, h14, h15, h16⟩ := h
  exact ⟨h10.trans (hb.1.trans h9.symm), h12.trans (hb.2.1.trans h11.symm),
    h14.trans (hb.2.2.1.trans h13.symm), h16.trans (hb.2.2.2.trans h15.symm)⟩

theorem applyDiffuseFactor_mirror (f : Option (ℝ × ℝ × ℝ × ℝ))
    {m : StandardMaterial} (h : m.opacityMirrorsDiffuse) :
    (applyDiffuseFactor f m).opacityMirrorsDiffuse := by
  obtain ⟨h1, h2, h3, h4⟩ := h
  unfold applyDiffuseFactor StandardMaterial.opacityMirrorsDiffuse
  repeat' split
  all_goals exact ⟨h1, h2, h3, h4⟩

theorem applyDiffuseOpacityTexture_mirror (dt : Option TextureInfo) (t : List Nat)
    {m : StandardMaterial} (h : m.opacityMirrorsDiffuse) :
    (applyDiffuseOpacityTexture dt t m).opacityMirrorsDiffuse := by
  obtain ⟨h1, h2, h3, h4⟩ := h
  unfold applyDiffuseOpacityTexture StandardMaterial.opacityMirrorsDiffuse
  repeat' split
  all_goals exact
    ⟨by first | rfl | exact h1, by first | rfl | exact h2,
     by first | rfl | exact h3, by first | rfl | exact h4⟩

theorem applySGSpecularFactor_mirror (f : Option (ℝ × ℝ × ℝ))
    {m : StandardMaterial} (h : m.opacityMirrorsDiffuse) :
    (applySGSpecularFactor f m).opacityMirrorsDiffuse := by
  obtain ⟨h1, h2, h3, h4⟩ := h
  unfold applySGSpecularFactor StandardMaterial.opacityMirrorsDiffuse
  repeat' split
  all_goals exact ⟨h1, h2, h3, h4⟩

theorem applySGGlossinessFactor_mirror (f : Option ℝ)
    {m : StandardMaterial} (h : m.opacityMirrorsDiffuse) :
    (applySGGlossinessFactor f m).opacityMirrorsDiffuse := by
  obtain ⟨h1, h2, h3, h4⟩ := h
  unfold applySGGlossinessFactor StandardMaterial.opacityMirrorsDiffuse
  repeat' split
  all_goals exact ⟨h1, h2, h3, h4⟩

theorem applySGSpecGlossTexture_mirror (ti : Option TextureInfo) (t : List Nat)
    {m : StandardMaterial} (h : m.opacityMirrorsDiffuse) :
    (applySGSpecGlossTexture ti t m).opacityMirrorsDiffuse := by
  obtain ⟨h1, h2, h3, h4⟩ := h
  unfold applySGSpecGlossTexture StandardMaterial.opacityMirrorsDiffuse
  repeat' split
  all_goals exact ⟨h1, h2, h3, h4⟩

theorem applyMRRoughnessFactor_mirror (f : Option ℝ)
    {m : StandardMaterial} (h : m.opacityMirrorsDiffuse) :
    (applyMRRoughnessFactor f m).opacityMirrorsDiffuse := by
  obtain ⟨h1, h2, h3, h4⟩ := h
  unfold applyMRRoughnessFactor StandardMaterial.opacityMirrorsDiffuse
  repeat' split
  all_goals exact ⟨h1, h2, h3, h4⟩

theorem applyMRMetallicRoughnessTexture_mirror (ti : Option TextureInfo) (t : List Nat)
    {m : StandardMaterial} (h : m.opacityMirrorsDiffuse) :
    (applyMRMetallicRoughnessTexture ti t m).opacityMirrorsDiffuse := by
  obtain ⟨h1, h2, h3, h4⟩ := h
  unfold applyMRMetallicRoughnessTexture StandardMaterial.opacityMirrorsDiffuse
  repeat' split
  all_goals exact ⟨h1, h2, h3, h4⟩

theorem applySpecularGlossiness_mirror (s : SpecularGlossinessData) (t : List Nat)
    {m : StandardMaterial} (h : m.opacityMirrorsDiffuse) :
    (applySpecularGlossiness s t m).opacityMirrorsDiffuse := by
  have h5 := applySGSpecGlossTexture_mirror s.specularGlossinessTexture t
    (applySGGlossinessFactor_mirror s.glossinessFactor
      (applySGSpecularFactor_mirror s.specularFactor
        (show StandardMaterial.opacityMirrorsDiffuse
            { applyDiffuseOpacityTexture s.diffuseTexture t
                (applyDiffuseFactor s.diffuseFactor m) with useMetalness := false } from
          applyDiffuseOpacityTexture_mirror s.diffuseTexture t
            (applyDiffuseFactor_mirror s.diffuseFactor h))))
  exact h5

theorem applyMetallicRoughness_mirror (p : PbrMetallicRoughnessData) (t : List Nat)
    {m : StandardMaterial} (h : m.opacityMirrorsDiffuse) :
    (applyMetallicRoughness p t m).opacityMirrorsDiffuse := by
  have h5 := applyMRMetallicRoughnessTexture_mirror p.metallicRoughnessTexture t
    (applyMRRoughnessFactor_mirror p.roughnessFactor
      (show StandardMaterial.opacityMirrorsDiffuse
          { applyDiffuseOpacityTexture p.baseColorTexture t
              (applyDiffuseFactor p.baseColorFactor m) with
            useMetalness := true
            metalness := p.metallicFactor.getD 1 } from
        applyDiffuseOpacityTexture_mirror p.baseColorTexture t
          (applyDiffuseFactor_mirror p.baseColorFactor h)))
  exact h5

theorem translateMaterial_mirror (d : MaterialData) (t : List Nat) :
    (translateMaterial d t).opacityMirrorsDiffuse := by
  have h0 : (initMaterial d).opacityMirrorsDiffuse := initMaterial_mirror d
  have h1 : (selectWorkflow d t (initMaterial d)).opacityMirrorsDiffuse := by
    unfold selectWorkflow
    cases hsg : d.extensions.bind fun e => e.KHR_materials_pbrSpecularGlossiness with
    | some s => exact applySpecularGlossiness_mirror s t h0
    | none =>
      cases hp : d.pbrMetallicRoughness with
      | some p => exact applyMetallicRoughness_mirror p t h0
      | none => exact h0
  exact mirror_congr (translateMaterial_coreOf d t) h1

/-- C7: when the base-color texture (metallic-roughness) or the diffuse
texture (spec-gloss) carries a texture-transform extension, the translated
material's opacity channel ends with the same tiling and the same offset
as its diffuse channel. -/
theorem textureTransform_mirrors (d : MaterialData) (t : List Nat)
    (ti : TextureInfo) (tr : TextureTransform)
    (_hsrc : ((d.extensions.bind fun e => e.KHR_materials_pbrSpecularGlossiness).bind
          SpecularGlossinessData.diffuseTexture = some ti)
      ∨ ((d.extensions.bind fun e => e.KHR_materials_pbrSpecularGlossiness) = none
          ∧ d.pbrMetallicRoughness.bind PbrMetallicRoughnessData.baseColorTexture = some ti))
    (_htr : ti.KHR_texture_transform = some tr) :
    (translateMaterial d t).opacityMapTiling = (translateMaterial d t).diffuseMapTiling
    ∧ (translateMaterial d t).opacityMapOffset = (translateMaterial d t).diffuseMapOffset :=
  ⟨(translateMaterial_mirror d t).2.2.1, (translateMaterial_mirror d t).2.2.2⟩

/-- Witness for C7: the concrete base-color texture with scale (2,3) and
offset (5,7) — the opacity channel ends with the diffuse channel's tiling
and offset. -/
theorem textureTransform_mirrors_witness :
    (translateMaterial mdTexTransform []).opacityMapTiling
        = (translateMaterial mdTexTransform []).diffuseMapTiling
    ∧ (translateMaterial mdTexTransform []).opacityMapOffset
        = (translateMaterial mdTexTransform []).diffuseMapOffset :=
  textureTransform_mirrors mdTexTransform []
    { index := 0
      texCoord := none
      KHR_texture_transform := some { scale := some (2, 3), offset := some (5, 7) }
      scale := none }
    { scale := some (2, 3), offset := some (5, 7) }
    (Or.inr ⟨rfl, rfl⟩) rfl

/-! ## Theorems about the mesh translator -/

theorem exceptJsCases {α : Type} (x : Except JsError α) :
    x = .error .undefinedAccess ∨ ∃ a, x = .ok a := by
  cases x with
  | error e => cases e; exact Or.inl rfl
  | ok a => exact Or.inr ⟨a, rfl⟩

theorem translatePrimitive_no_position (accs : List Accessor)
    (cn : List ℚ → List ℚ → List ℚ) (p : Primitive)
    (hp : p.attributes.POSITION = none) :
    translatePrimitive accs cn p = .error .undefinedAccess := by
  unfold translatePrimitive
  rw [hp]
  rcases exceptJsCases (resolveAttribute accs p.attributes.NORMAL) with h1 | ⟨a1, h1⟩ <;> rw [h1]
  · rfl
  rcases exceptJsCases (resolveAttribute accs p.attributes.TANGENT) with h2 | ⟨a2, h2⟩ <;> rw [h2]
  · rfl
  rcases exceptJsCases (resolveAttribute accs p.attributes.TEXCOORD_0) with h3 | ⟨a3, h3⟩ <;> rw [h3]
  · rfl
  rcases exceptJsCases (resolveAttribute accs p.attributes.TEXCOORD_1) with h4 | ⟨a4, h4⟩ <;> rw [h4]
  · rfl
  rcases exceptJsCases (resolveAttribute accs p.attributes.COLOR_0) with h5 | ⟨a5, h5⟩ <;> rw [h5]
  · rfl
  rcases exceptJsCases (resolveAttribute accs p.attributes.JOINTS_0) with h6 | ⟨a6, h6⟩ <;> rw [h6]
  · rfl
  rcases exceptJsCases (resolveAttribute accs p.attributes.WEIGHTS_0) with h7 | ⟨a7, h7⟩ <;> rw [h7]
  · rfl
  rcases exceptJsCases (resolveAttribute accs p.indices) with h8 | ⟨a8, h8⟩ <;> rw [h8]
  · rfl
  · rfl

/-- Counterexample for C6: in a two-primitive mesh whose first primitive
has no resolvable position data, `translateMesh` faults with an
undefined-property access and produces no meshes at all — the well-formed
second primitive, which translates fine on its own, is not built. -/
theorem translateMesh_mixed_counterexample :
    translateMesh gltfScenario constantNormals mixedMesh
        = .error .undefinedAccess
    ∧ translateMesh gltfScenario constantNormals triangleOnlyMesh
        = .ok (some [triangleMesh]) := by
  have htri : translatePrimitive [triAccessor] constantNormals primTriangle
      = .ok triangleMesh := by
    simp only [translatePrimitive, resolveAttribute, primTriangle, triAccessor,
      Attributes.empty]
    norm_num
    rfl
  constructor
  · rfl
  · show ([primTriangle].mapM (translatePrimitive [triAccessor] constantNormals)).map some
        = .ok (some [triangleMesh])
    rw [List.mapM_cons, htri]
    rfl

/-- C6 (amended): a primitive whose position data cannot be resolved makes
the whole `translateMesh` call fault (the bounding-box step reads `min` of
an undefined accessor): nothing is logged for it, the primitive is not
skipped, and no other primitive of the mesh is built. -/
theorem translateMesh_aborts_on_missing_position (accs : List Accessor)
    (bvs : List BufferView) (cn : List ℚ → List ℚ → List ℚ) (p : Primitive)
    (hp : p.attributes.POSITION = none) (rest : List Primitive) :
    translateMesh { accessors := some accs, bufferViews := some bvs } cn
        { primitives := p :: rest } = .error .undefinedAccess := by
  show ((p :: rest).mapM (translatePrimitive accs cn)).map some = .error .undefinedAccess
  rw [List.mapM_cons, translatePrimitive_no_position accs cn p hp]
  rfl

/-- Witness for the amended C6: the concrete no-attribute primitive makes
the call fault. -/
theorem translateMesh_aborts_on_missing_position_witness :
    primNoPosition.attributes.POSITION = none
    ∧ translateMesh { accessors := some [triAccessor], bufferViews := some [] }
        constantNormals { primitives := [primNoPosition] } = .error .undefinedAccess :=
  ⟨rfl,
   translateMesh_aborts_on_missing_position [triAccessor] [] constantNormals
     primNoPosition rfl []⟩

/-! ## Theorems about the compressed-geometry index assembly -/

theorem dracoFaceIndices_length (face : Nat → Nat × Nat × Nat) (n : Nat) :
    (dracoFaceIndices face n).length = 3 * n := by
  induction n with
  | zero => rfl
  | succ k ih =>
    simp only [dracoFaceIndices, List.length_append, List.length_cons,
      List.length_nil, ih]
    omega

/-- C8: the triangulated-mesh index assembly chooses 16-bit elements when
the decoded point count is below 65536 and 32-bit elements otherwise, and
the array holds three indices per face. -/
theorem dracoIndexArray_spec (numPoints numFaces : Nat)
    (face : Nat → Nat × Nat × Nat) :
    (dracoIndexArray numPoints numFaces face).1
        = (if numPoints < 65536 then IndexWidth.u16 else IndexWidth.u32)
    ∧ (dracoIndexArray numPoints numFaces face).2.length = 3 * numFaces := by
  constructor
  · show (if numPoints > 65535 then IndexWidth.u32 else IndexWidth.u16) = _
    by_cases h : numPoints > 65535
    · rw [if_pos h, if_neg (by omega)]
    · rw [if_neg h, if_pos (by omega)]
  · exact dracoFaceIndices_length face numFaces

/-! ## Theorems about variant-set node-property parsing -/

theorem foldl_materialMappingStep_filter (c : ContainerResource) :
    ∀ (l : List VariantMaterialData) (acc : List (Nat × Nat)),
      l.foldl (materialMappingStep c) acc
        = (l.filter fun d => (c.materialAt d.material).isSome).foldl
            (materialMappingStep c) acc := by
  intro l
  induction l with
  | nil => intro acc; rfl
  | cons d rest ih =>
    intro acc
    rw [List.filter_cons]
    by_cases h : (c.materialAt d.material).isSome
    · simp only [h, if_true, List.foldl_cons]
      exact ih (materialMappingStep c acc d)
    · have hn : c.materialAt d.material = none := Option.not_isSome_iff_eq_none.mp h
      simp only [h, if_false, Bool.false_eq_true, List.foldl_cons]
      have hstep : materialMappingStep c acc d = acc := by
        unfold materialMappingStep
        rw [hn]
      rw [hstep, ih]

/-- C10: a variant node-property block with mesh index -1 yields an
explicit null model reference, an absent mesh field yields undefined, and
the material mapping is exactly the fold over the entries whose referenced
container material exists — entries with a missing material are silently
omitted. -/
theorem parseVariantNodeProperties_spec (vis : Option Bool)
    (mats : Option (List VariantMaterialData)) (l : List VariantMaterialData)
    (mesh : Option Int) (c : ContainerResource) :
    (parseVariantNodeProperties ⟨vis, mats, some (-1)⟩ c).modelAssetID = ModelRef.null
    ∧ (parseVariantNodeProperties ⟨vis, mats, none⟩ c).modelAssetID = ModelRef.undef
    ∧ (parseVariantNodeProperties ⟨vis, some l, mesh⟩ c).materialMapping
        = some ((l.filter fun d => (c.materialAt d.material).isSome).foldl
            (materialMappingStep c) []) := by
  refine ⟨rfl, rfl, ?_⟩
  exact congrArg some (foldl_materialMappingStep_filter c l [])

end GLTFViewer
